import Mathlib

/-!
Verification development for the SimpleMicroservices CRUD service
(`src/main.py`, `src/models/product.py`, `src/models/order.py`).

The Python service keeps four in-memory dictionaries (persons, addresses,
products, orders) and exposes create / list / get / patch / delete handlers.
We embed the dictionaries as association lists over `Nat` keys (UUIDs are
opaque identifiers, rendered here as naturals), wall-clock timestamps as
naturals, and `Decimal` money amounts as integers (cents).  Each handler
becomes a pure function from the application state (plus the freshly drawn
id and the current time, which in Python come from `uuid4()` and
`datetime.utcnow()`) to a response together with the successor state.
-/

namespace CloudHw1

/-- Lookup in a Python dict modelled as an association list
(first binding for the key wins; reachable states have unique keys). -/
def dictGet {α : Type} : List (Nat × α) → Nat → Option α
  | [], _ => none
  | (k2, v) :: rest, k => if k2 = k then some v else dictGet rest k

/-- Assignment `d[k] = v` on a Python dict: overwrite in place when the key
exists, append otherwise (CPython preserves insertion order). -/
def dictSet {α : Type} : List (Nat × α) → Nat → α → List (Nat × α)
  | [], k, v => [(k, v)]
  | (k2, v2) :: rest, k, v =>
    if k2 = k then (k2, v) :: rest else (k2, v2) :: dictSet rest k v

/-- Deletion `del d[k]` on a Python dict. -/
def dictDel {α : Type} (tbl : List (Nat × α)) (k : Nat) : List (Nat × α) :=
  tbl.filter fun kv => decide (kv.1 ≠ k)

/-- `d.values()` in iteration order. -/
def dictValues {α : Type} (tbl : List (Nat × α)) : List α :=
  tbl.map Prod.snd

/-- Order lifecycle enumeration from `models/order.py` (`OrderStatus`). -/
inductive OrderStatus where
  | pending
  | confirmed
  | processing
  | shipped
  | delivered
  | cancelled
deriving DecidableEq, Repr

/-- `ProductRead` from `models/product.py`: the stored product entity. -/
structure ProductRead where
  id : Nat
  name : String
  description : Option String
  sku : String
  category : String
  price : Int
  stock_quantity : Nat
  is_active : Bool
  created_at : Nat
  updated_at : Nat
deriving DecidableEq, Repr

/-- `ProductCreate` from `models/product.py`: the creation payload
(server-generated fields absent). -/
structure ProductCreate where
  name : String
  description : Option String
  sku : String
  category : String
  price : Int
  stock_quantity : Nat
  is_active : Bool
deriving DecidableEq, Repr

/-- `ProductUpdate` from `models/product.py`: a sparse patch.  `none` means
the field was not supplied (pydantic `exclude_unset`); `description` can be
explicitly set to null, hence the nested option.  There is no `id` field. -/
structure ProductUpdate where
  name : Option String
  description : Option (Option String)
  sku : Option String
  category : Option String
  price : Option Int
  stock_quantity : Option Nat
  is_active : Option Bool
deriving DecidableEq, Repr

/-- `OrderItem` from `models/order.py`: an embedded line-item value object. -/
structure OrderItem where
  product_id : Nat
  product_name : String
  quantity : Nat
  unit_price : Int
  subtotal : Int
deriving DecidableEq, Repr

/-- `OrderRead` from `models/order.py`: the stored order entity. -/
structure OrderRead where
  id : Nat
  order_number : String
  customer_id : Nat
  customer_name : String
  customer_email : String
  items : List OrderItem
  subtotal : Int
  tax_amount : Int
  shipping_amount : Int
  total_amount : Int
  status : OrderStatus
  shipping_address : String
  notes : Option String
  created_at : Nat
  updated_at : Nat
deriving DecidableEq, Repr

/-- `OrderCreate` from `models/order.py`: the creation payload. -/
structure OrderCreate where
  order_number : String
  customer_id : Nat
  customer_name : String
  customer_email : String
  items : List OrderItem
  subtotal : Int
  tax_amount : Int
  shipping_amount : Int
  total_amount : Int
  status : OrderStatus
  shipping_address : String
  notes : Option String
deriving DecidableEq, Repr

/-- `OrderUpdate` from `models/order.py`: only `status`, `shipping_address`
and `notes` are patchable; there is no `id` field. -/
structure OrderUpdate where
  status : Option OrderStatus
  shipping_address : Option String
  notes : Option (Option String)
deriving DecidableEq, Repr

/-- Modelled from the spec: `models/address.py` is absent from the sources;
per §3 an Address carries a caller-supplied identity, postal fields and the
two audit timestamps all entities share. -/
structure AddressRead where
  id : Nat
  street : String
  city : String
  state : String
  postal_code : String
  country : String
  created_at : Nat
  updated_at : Nat
deriving DecidableEq, Repr

/-- Modelled from the spec: `models/address.py` is absent from the sources;
the creation payload carries the caller-supplied identity and postal
fields (`create_address` in `src/main.py` reads `address.id`). -/
structure AddressCreate where
  id : Nat
  street : String
  city : String
  state : String
  postal_code : String
  country : String
deriving DecidableEq, Repr

/-- Modelled from the spec: `models/address.py` is absent from the sources;
per §4.4 the update payload is a sparse patch of the postal fields, with no
identity and no timestamp fields. -/
structure AddressUpdate where
  street : Option String
  city : Option String
  state : Option String
  postal_code : Option String
  country : Option String
deriving DecidableEq, Repr

/-- Modelled from the spec: `models/person.py` is absent from the sources;
per §3 a Person carries a generated identity, an optional unique external
identifier `uni`, human attributes, embedded addresses and the two audit
timestamps all entities share. -/
structure PersonRead where
  id : Nat
  uni : Option String
  first_name : String
  last_name : String
  email : String
  phone : Option String
  birth_date : String
  addresses : List AddressRead
  created_at : Nat
  updated_at : Nat
deriving DecidableEq, Repr

/-- Modelled from the spec: `models/person.py` is absent from the sources;
the creation payload is the Person shape without the server-generated
identity and timestamps. -/
structure PersonCreate where
  uni : Option String
  first_name : String
  last_name : String
  email : String
  phone : Option String
  birth_date : String
  addresses : List AddressRead
deriving DecidableEq, Repr

/-- Modelled from the spec: `models/person.py` is absent from the sources;
per §4.4 the update payload is a sparse patch of the Person attributes
(optional fields can be explicitly nulled), with no identity and no
timestamp fields. -/
structure PersonUpdate where
  uni : Option (Option String)
  first_name : Option String
  last_name : Option String
  email : Option String
  phone : Option (Option String)
  birth_date : Option String
  addresses : Option (List AddressRead)
deriving DecidableEq, Repr

/-- The four module-level dictionaries of `src/main.py`. -/
structure AppState where
  persons : List (Nat × PersonRead)
  addresses : List (Nat × AddressRead)
  products : List (Nat × ProductRead)
  orders : List (Nat × OrderRead)
deriving DecidableEq, Repr

/-- An `HTTPException` as raised in `src/main.py`. -/
structure ApiError where
  status_code : Nat
  detail : String
deriving DecidableEq, Repr

/-- A handler response: either a payload with its HTTP status code
(201 on the create routes, 200 otherwise) or a raised `HTTPException`. -/
inductive ApiResult (α : Type) where
  | ok (status_code : Nat) (value : α)
  | err (e : ApiError)
deriving DecidableEq, Repr

/-- `HTTPException(400, "Order with this order number already exists")`,
the spec's DuplicateConstraint on `Order.order_number`. -/
def orderNumberDuplicateError : ApiError :=
  ⟨400, "Order with this order number already exists"⟩

/-- `HTTPException(400, "Customer not found")`, the spec's InvalidReference
on `Order.customer_id`. -/
def customerNotFoundError : ApiError := ⟨400, "Customer not found"⟩

/-- `HTTPException(400, f"Product {item.product_id} not found")`, the
spec's InvalidReference on an order item's `product_id`. -/
def productMissingError (product_id : Nat) : ApiError :=
  ⟨400, "Product " ++ toString product_id ++ " not found"⟩

/-- `HTTPException(400, f"Insufficient stock for product {product.name}")`,
the spec's InsufficientResource. -/
def insufficientStockError (name : String) : ApiError :=
  ⟨400, "Insufficient stock for product " ++ name⟩

/-- `HTTPException(400, "Product with this SKU already exists")`, the
spec's DuplicateConstraint on `Product.sku`. -/
def skuDuplicateError : ApiError := ⟨400, "Product with this SKU already exists"⟩

/-- `HTTPException(404, "Product not found")`. -/
def productNotFoundError : ApiError := ⟨404, "Product not found"⟩

/-- `HTTPException(404, "Order not found")`. -/
def orderNotFoundError : ApiError := ⟨404, "Order not found"⟩

/-- `HTTPException(404, "Person not found")`. -/
def personNotFoundError : ApiError := ⟨404, "Person not found"⟩

/-- `HTTPException(404, "Address not found")`. -/
def addressNotFoundError : ApiError := ⟨404, "Address not found"⟩

/-- `HTTPException(400, "Address with this ID already exists")`. -/
def addressIdExistsError : ApiError := ⟨400, "Address with this ID already exists"⟩

/-- Case folding used by the product name / category filters
(Python `str.lower()`). -/
def lowerStr (s : String) : String := ⟨s.data.map Char.toLower⟩

/-- Does `pat` occur at the head of `l`? -/
def leadsList : List Char → List Char → Bool
  | [], _ => true
  | _ :: _, [] => false
  | a :: as, b :: bs => a == b && leadsList as bs

/-- Substring containment, Python's `needle in haystack` on strings. -/
def containsSub (needle : List Char) : List Char → Bool
  | [] => needle.isEmpty
  | b :: bs => leadsList needle (b :: bs) || containsSub needle bs

/-- `needle in haystack` for `String`. -/
def strContains (haystack needle : String) : Bool :=
  containsSub needle.data haystack.data

/-- `ProductRead(**product.model_dump())` with server defaults
`id = uuid4()`, `created_at = updated_at = utcnow()`. -/
def productReadOfCreate (product : ProductCreate) (newId now : Nat) : ProductRead :=
  { id := newId
    name := product.name
    description := product.description
    sku := product.sku
    category := product.category
    price := product.price
    stock_quantity := product.stock_quantity
    is_active := product.is_active
    created_at := now
    updated_at := now }

/-- `OrderRead(**order.model_dump())` with server defaults. -/
def orderReadOfCreate (order : OrderCreate) (newId now : Nat) : OrderRead :=
  { id := newId
    order_number := order.order_number
    customer_id := order.customer_id
    customer_name := order.customer_name
    customer_email := order.customer_email
    items := order.items
    subtotal := order.subtotal
    tax_amount := order.tax_amount
    shipping_amount := order.shipping_amount
    total_amount := order.total_amount
    status := order.status
    shipping_address := order.shipping_address
    notes := order.notes
    created_at := now
    updated_at := now }

/-- `PersonRead(**person.model_dump())` with server defaults. -/
def personReadOfCreate (person : PersonCreate) (newId now : Nat) : PersonRead :=
  { id := newId
    uni := person.uni
    first_name := person.first_name
    last_name := person.last_name
    email := person.email
    phone := person.phone
    birth_date := person.birth_date
    addresses := person.addresses
    created_at := now
    updated_at := now }

/-- `AddressRead(**address.model_dump())` with server timestamp defaults
(the identity is caller-supplied). -/
def addressReadOfCreate (address : AddressCreate) (now : Nat) : AddressRead :=
  { id := address.id
    street := address.street
    city := address.city
    state := address.state
    postal_code := address.postal_code
    country := address.country
    created_at := now
    updated_at := now }

/-- The merge step of `update_product` (`src/main.py:228-232`):
`stored.update(update.model_dump(exclude_unset=True))` followed by
`stored["updated_at"] = datetime.utcnow()`. -/
def applyProductUpdate (stored : ProductRead) (update : ProductUpdate)
    (now : Nat) : ProductRead :=
  { stored with
    name := update.name.getD stored.name
    description := update.description.getD stored.description
    sku := update.sku.getD stored.sku
    category := update.category.getD stored.category
    price := update.price.getD stored.price
    stock_quantity := update.stock_quantity.getD stored.stock_quantity
    is_active := update.is_active.getD stored.is_active
    updated_at := now }

/-- The merge step of `update_order` (`src/main.py:426-430`), with the
`updated_at` refresh. -/
def applyOrderUpdate (stored : OrderRead) (update : OrderUpdate)
    (now : Nat) : OrderRead :=
  { stored with
    status := update.status.getD stored.status
    shipping_address := update.shipping_address.getD stored.shipping_address
    notes := update.notes.getD stored.notes
    updated_at := now }

/-- The merge step of `update_person` (`src/main.py:310-312`): a plain
`stored.update(update.model_dump(exclude_unset=True))` — note that no
timestamp is touched. -/
def applyPersonUpdate (stored : PersonRead) (update : PersonUpdate) : PersonRead :=
  { stored with
    uni := update.uni.getD stored.uni
    first_name := update.first_name.getD stored.first_name
    last_name := update.last_name.getD stored.last_name
    email := update.email.getD stored.email
    phone := update.phone.getD stored.phone
    birth_date := update.birth_date.getD stored.birth_date
    addresses := update.addresses.getD stored.addresses }

/-- The merge step of `update_address` (`src/main.py:117-119`): again no
timestamp is touched. -/
def applyAddressUpdate (stored : AddressRead) (update : AddressUpdate) : AddressRead :=
  { stored with
    street := update.street.getD stored.street
    city := update.city.getD stored.city
    state := update.state.getD stored.state
    postal_code := update.postal_code.getD stored.postal_code
    country := update.country.getD stored.country }

/-- `create_product` (`src/main.py:129-149`): linear SKU-duplicate scan,
then store the new entity under its generated id with status 201. -/
def create_product (s : AppState) (product : ProductCreate) (newId now : Nat) :
    ApiResult ProductRead × AppState :=
  if (dictValues s.products).any (fun existing_product =>
      existing_product.sku == product.sku) then
    (.err skuDuplicateError, s)
  else
    let product_read := productReadOfCreate product newId now
    (.ok 201 product_read,
     { s with products := dictSet s.products product_read.id product_read })

/-- The optional-filter query parameters of `list_products`
(`src/main.py:151-158`). -/
structure ProductFilters where
  name : Option String
  sku : Option String
  category : Option String
  is_active : Option Bool
  min_price : Option Int
  max_price : Option Int
deriving DecidableEq, Repr

/-- One narrowing step of a list endpoint: an absent query parameter is a
no-op, a present one keeps the matching elements (`results = [p for p in
results if ...]`). -/
def optFilter {α β : Type} (o : Option β) (p : β → α → Bool) (xs : List α) : List α :=
  match o with
  | none => xs
  | some b => xs.filter (p b)

/-- `list_products` (`src/main.py:151-191`): start from the snapshot of
`products.values()` and narrow it by each supplied filter in turn, in
source order: name substring (case-insensitive), exact sku, category
(case-insensitive exact), is_active, then the inclusive price bounds. -/
def list_products (s : AppState) (f : ProductFilters) : List ProductRead :=
  optFilter f.max_price (fun m p => decide (p.price ≤ m))
    (optFilter f.min_price (fun m p => decide (m ≤ p.price))
      (optFilter f.is_active (fun b p => p.is_active == b)
        (optFilter f.category (fun category p =>
            lowerStr p.category == lowerStr category)
          (optFilter f.sku (fun sku p => p.sku == sku)
            (optFilter f.name (fun name p =>
                strContains (lowerStr p.name) (lowerStr name))
              (dictValues s.products))))))

/-- The SKU-conflict scan of `update_product` (`src/main.py:221-225`):
only runs when the patch supplies a SKU, and skips the entity being
updated. -/
def skuConflictExists (products : List (Nat × ProductRead)) (product_id : Nat)
    (sku : Option String) : Bool :=
  match sku with
  | none => false
  | some newSku =>
    products.any fun kv => kv.1 != product_id && kv.2.sku == newSku

/-- `update_product` (`src/main.py:207-234`): 404 if absent, SKU-conflict
scan excluding self, then merge with `updated_at` refresh and persist. -/
def update_product (s : AppState) (product_id : Nat) (update : ProductUpdate)
    (now : Nat) : ApiResult ProductRead × AppState :=
  match dictGet s.products product_id with
  | none => (.err productNotFoundError, s)
  | some stored =>
    if skuConflictExists s.products product_id update.sku then
      (.err skuDuplicateError, s)
    else
      let merged := applyProductUpdate stored update now
      (.ok 200 merged, { s with products := dictSet s.products product_id merged })

/-- `delete_product` (`src/main.py:236-254`): unconditional hard delete. -/
def delete_product (s : AppState) (product_id : Nat) : ApiResult String × AppState :=
  if (dictGet s.products product_id).isNone then
    (.err productNotFoundError, s)
  else
    (.ok 200 "Product deleted successfully",
     { s with products := dictDel s.products product_id })

/-- `create_person` (`src/main.py:259-264`): store the new Person under its
generated id.  Note there is no scan of the existing table — in particular
no check on `uni`. -/
def create_person (s : AppState) (person : PersonCreate) (newId now : Nat) :
    ApiResult PersonRead × AppState :=
  let person_read := personReadOfCreate person newId now
  (.ok 201 person_read,
   { s with persons := dictSet s.persons person_read.id person_read })

/-- `update_person` (`src/main.py:306-313`): 404 if absent, then sparse
merge and persist.  The handler never calls `datetime.utcnow()`; the `now`
argument is taken (as for the other handlers) but unused. -/
def update_person (s : AppState) (person_id : Nat) (update : PersonUpdate)
    (now : Nat) : ApiResult PersonRead × AppState :=
  match dictGet s.persons person_id with
  | none => (.err personNotFoundError, s)
  | some stored =>
    let merged := applyPersonUpdate stored update
    (.ok 200 merged, { s with persons := dictSet s.persons person_id merged })

/-- `create_address` (`src/main.py:77-82`): caller-supplied id, Conflict if
it pre-exists. -/
def create_address (s : AppState) (address : AddressCreate) (now : Nat) :
    ApiResult AddressRead × AppState :=
  if (dictGet s.addresses address.id).isSome then
    (.err addressIdExistsError, s)
  else
    let address_read := addressReadOfCreate address now
    (.ok 201 address_read,
     { s with addresses := dictSet s.addresses address_read.id address_read })

/-- `update_address` (`src/main.py:113-120`): 404 if absent, then sparse
merge and persist; like `update_person` it never touches a timestamp. -/
def update_address (s : AppState) (address_id : Nat) (update : AddressUpdate)
    (now : Nat) : ApiResult AddressRead × AppState :=
  match dictGet s.addresses address_id with
  | none => (.err addressNotFoundError, s)
  | some stored =>
    let merged := applyAddressUpdate stored update
    (.ok 200 merged, { s with addresses := dictSet s.addresses address_id merged })

/-- The order-number duplicate scan of `create_order`
(`src/main.py:334-336`). -/
def hasOrderNumber (s : AppState) (order_number : String) : Bool :=
  (dictValues s.orders).any fun existing_order =>
    existing_order.order_number == order_number

/-- The per-item loop of `create_order` (`src/main.py:343-351`), returning
the first raised error, if any: product existence first, then stock
sufficiency, short-circuiting in caller-supplied item order. -/
def itemsCheck (products : List (Nat × ProductRead)) :
    List OrderItem → Option ApiError
  | [] => none
  | item :: rest =>
    match dictGet products item.product_id with
    | none => some (productMissingError item.product_id)
    | some product =>
      if product.stock_quantity < item.quantity then
        some (insufficientStockError product.name)
      else itemsCheck products rest

/-- `create_order` (`src/main.py:322-357`): order-number uniqueness, then
customer existence, then per-item validation; on success persist the order
under its generated id with status 201. -/
def create_order (s : AppState) (order : OrderCreate) (newId now : Nat) :
    ApiResult OrderRead × AppState :=
  if hasOrderNumber s order.order_number then
    (.err orderNumberDuplicateError, s)
  else if (dictGet s.persons order.customer_id).isNone then
    (.err customerNotFoundError, s)
  else
    match itemsCheck s.products order.items with
    | some e => (.err e, s)
    | none =>
      let order_read := orderReadOfCreate order newId now
      (.ok 201 order_read,
       { s with orders := dictSet s.orders order_read.id order_read })

/-- `update_order` (`src/main.py:410-432`): 404 if absent, then sparse
merge with `updated_at` refresh and persist — no transition table gates
the status change. -/
def update_order (s : AppState) (order_id : Nat) (update : OrderUpdate)
    (now : Nat) : ApiResult OrderRead × AppState :=
  match dictGet s.orders order_id with
  | none => (.err orderNotFoundError, s)
  | some stored =>
    let merged := applyOrderUpdate stored update now
    (.ok 200 merged, { s with orders := dictSet s.orders order_id merged })

/-- `delete_order` (`src/main.py:434-452`): unconditional hard delete. -/
def delete_order (s : AppState) (order_id : Nat) : ApiResult String × AppState :=
  if (dictGet s.orders order_id).isNone then
    (.err orderNotFoundError, s)
  else
    (.ok 200 "Order deleted successfully",
     { s with orders := dictDel s.orders order_id })

/-- An order item passes the per-item loop of `create_order`: its product
exists and its quantity does not exceed the product's stock. -/
def itemOkB (products : List (Nat × ProductRead)) (item : OrderItem) : Bool :=
  match dictGet products item.product_id with
  | none => false
  | some product => !(decide (product.stock_quantity < item.quantity))

/-- Every stored product sits in the table under its own `id` field. -/
def productsKeyed (products : List (Nat × ProductRead)) : Bool :=
  products.all fun kv => kv.2.id == kv.1

/-- Every stored order sits in the table under its own `id` field. -/
def ordersKeyed (orders : List (Nat × OrderRead)) : Bool :=
  orders.all fun kv => kv.2.id == kv.1

/-- Keep only the `name` filter of a query. -/
def onlyNameFilter (f : ProductFilters) : ProductFilters :=
  ⟨f.name, none, none, none, none, none⟩

/-- Keep only the `sku` filter of a query. -/
def onlySkuFilter (f : ProductFilters) : ProductFilters :=
  ⟨none, f.sku, none, none, none, none⟩

/-- Keep only the `category` filter of a query. -/
def onlyCategoryFilter (f : ProductFilters) : ProductFilters :=
  ⟨none, none, f.category, none, none, none⟩

/-- Keep only the `is_active` filter of a query. -/
def onlyActiveFilter (f : ProductFilters) : ProductFilters :=
  ⟨none, none, none, f.is_active, none, none⟩

/-- Keep only the `min_price` filter of a query. -/
def onlyMinPriceFilter (f : ProductFilters) : ProductFilters :=
  ⟨none, none, none, none, f.min_price, none⟩

/-- Keep only the `max_price` filter of a query. -/
def onlyMaxPriceFilter (f : ProductFilters) : ProductFilters :=
  ⟨none, none, none, none, none, f.max_price⟩

/-- Overwrite a product's `is_active` flag, leaving everything else. -/
def setActive (b : Bool) (p : ProductRead) : ProductRead := { p with is_active := b }

/-- Overwrite every stored product's `is_active` flag. -/
def setAllActive (b : Bool) (s : AppState) : AppState :=
  { s with products := s.products.map fun kv => (kv.1, setActive b kv.2) }

/-- A patch that supplies only a SKU. -/
def skuPatch (sku : String) : ProductUpdate :=
  ⟨none, none, some sku, none, none, none, none⟩

/-! ### Concrete fixtures used in witnesses and counterexamples -/

/-- A stored Person with UNI "ab1234". -/
def personA : PersonRead :=
  { id := 5
    uni := some "ab1234"
    first_name := "Ada"
    last_name := "Lovelace"
    email := "ada@example.com"
    phone := none
    birth_date := "1815-12-10"
    addresses := []
    created_at := 0
    updated_at := 0 }

/-- A creation payload carrying the same UNI as `personA`. -/
def personACreate : PersonCreate :=
  { uni := some "ab1234"
    first_name := "Augusta"
    last_name := "King"
    email := "augusta@example.com"
    phone := none
    birth_date := "1815-12-10"
    addresses := [] }

/-- A patch renaming a Person, bearing no timestamp field. -/
def personPatch0 : PersonUpdate :=
  ⟨none, some "Augusta", none, none, none, none, none⟩

/-- A stored Product with 50 in stock, keyed by id 10. -/
def productA : ProductRead :=
  { id := 10
    name := "MacBook Pro 16-inch"
    description := none
    sku := "MBP16-M3-512GB"
    category := "Electronics"
    price := 249999
    stock_quantity := 50
    is_active := true
    created_at := 0
    updated_at := 0 }

/-- A second stored Product with a different SKU, keyed by id 11. -/
def productB : ProductRead :=
  { id := 11
    name := "iPhone 15 Pro"
    description := none
    sku := "IPH15PRO-256GB"
    category := "Smartphones"
    price := 99999
    stock_quantity := 100
    is_active := true
    created_at := 0
    updated_at := 0 }

/-- `productA` with its active flag cleared. -/
def productInactive : ProductRead := { productA with is_active := false }

/-- An order payload for 2 units of product 10 by customer 5. -/
def order0 : OrderCreate :=
  { order_number := "ORD-20250913-0001"
    customer_id := 5
    customer_name := "Ada Lovelace"
    customer_email := "ada@example.com"
    items := [⟨10, "MacBook Pro 16-inch", 2, 249999, 499998⟩]
    subtotal := 499998
    tax_amount := 39999
    shipping_amount := 2999
    total_amount := 542996
    status := .pending
    shipping_address := "123 Main St, New York, NY 10001, USA"
    notes := none }

/-- A stored Order in the DELIVERED state, keyed by id 20. -/
def orderA : OrderRead :=
  { id := 20
    order_number := "ORD-20250913-0001"
    customer_id := 5
    customer_name := "Ada Lovelace"
    customer_email := "ada@example.com"
    items := [⟨10, "MacBook Pro 16-inch", 2, 249999, 499998⟩]
    subtotal := 499998
    tax_amount := 39999
    shipping_amount := 2999
    total_amount := 542996
    status := .delivered
    shipping_address := "123 Main St, New York, NY 10001, USA"
    notes := none
    created_at := 0
    updated_at := 0 }

/-- The empty application state. -/
def emptyState : AppState := ⟨[], [], [], []⟩

/-- One person, one product, no orders. -/
def baseState : AppState := ⟨[(5, personA)], [], [(10, productA)], []⟩

/-- Two products with distinct SKUs. -/
def twoProductState : AppState := ⟨[], [], [(10, productA), (11, productB)], []⟩

/-- One person and one inactive product. -/
def inactiveState : AppState := ⟨[(5, personA)], [], [(10, productInactive)], []⟩

/-- One person, one product and one stored (delivered) order. -/
def stateWithOrder : AppState :=
  ⟨[(5, personA)], [], [(10, productA)], [(20, orderA)]⟩

/-! ### Lemmas about the dictionary primitives -/

theorem dictGet_dictSet_self {α : Type} (tbl : List (Nat × α)) (k : Nat) (v : α) :
    dictGet (dictSet tbl k v) k = some v := by
  induction tbl with
  | nil => simp [dictSet, dictGet]
  | cons kv rest ih =>
    obtain ⟨k2, v2⟩ := kv
    by_cases h : k2 = k
    · simp [dictSet, dictGet, h]
    · simp [dictSet, dictGet, h, ih]

theorem mem_dictSet {α : Type} {tbl : List (Nat × α)} {k : Nat} {v : α}
    {kv : Nat × α} (h : kv ∈ dictSet tbl k v) : kv = (k, v) ∨ kv ∈ tbl := by
  induction tbl with
  | nil =>
    simp [dictSet] at h
    exact Or.inl h
  | cons kv2 rest ih =>
    obtain ⟨k2, v2⟩ := kv2
    by_cases hk : k2 = k
    · subst hk
      simp [dictSet] at h
      rcases h with h | h
      · exact Or.inl h
      · exact Or.inr (List.mem_cons_of_mem _ h)
    · simp [dictSet, hk] at h
      rcases h with h | h
      · exact Or.inr (by simp [h])
      · rcases ih h with h2 | h2
        · exact Or.inl h2
        · exact Or.inr (List.mem_cons_of_mem _ h2)

theorem dictGet_mem {α : Type} {tbl : List (Nat × α)} {k : Nat} {v : α}
    (h : dictGet tbl k = some v) : (k, v) ∈ tbl := by
  induction tbl with
  | nil => simp [dictGet] at h
  | cons kv rest ih =>
    obtain ⟨k2, v2⟩ := kv
    by_cases hk : k2 = k
    · subst hk
      simp [dictGet] at h
      simp [h]
    · simp [dictGet, hk] at h
      exact List.mem_cons_of_mem _ (ih h)

theorem mem_dictDel {α : Type} {tbl : List (Nat × α)} {k : Nat}
    {kv : Nat × α} (h : kv ∈ dictDel tbl k) : kv ∈ tbl := by
  have h2 : kv ∈ tbl.filter fun kv => decide (kv.1 ≠ k) := h
  exact (List.mem_filter.mp h2).1

theorem all_dictSet {α : Type} {p : Nat × α → Bool} {tbl : List (Nat × α)}
    {k : Nat} {v : α} (h : tbl.all p = true) (hv : p (k, v) = true) :
    (dictSet tbl k v).all p = true := by
  rw [List.all_eq_true] at h ⊢
  intro kv hkv
  rcases mem_dictSet hkv with h2 | h2
  · rw [h2]; exact hv
  · exact h kv h2

theorem all_dictDel {α : Type} {p : Nat × α → Bool} {tbl : List (Nat × α)}
    {k : Nat} (h : tbl.all p = true) : (dictDel tbl k).all p = true := by
  rw [List.all_eq_true] at h ⊢
  intro kv hkv
  exact h kv (mem_dictDel hkv)

/-! ### Lemmas about the per-item validation loop -/

theorem itemsCheck_eq_none_iff (products : List (Nat × ProductRead))
    (items : List OrderItem) :
    itemsCheck products items = none ↔ ∀ x ∈ items, itemOkB products x = true := by
  induction items with
  | nil => simp [itemsCheck]
  | cons item rest ih =>
    cases hg : dictGet products item.product_id with
    | none => simp [itemsCheck, hg, itemOkB]
    | some product =>
      by_cases hlt : product.stock_quantity < item.quantity
      · simp [itemsCheck, hg, hlt, itemOkB]
      · simp [itemsCheck, hg, hlt, itemOkB, ih]

theorem itemsCheck_append_of_ok (products : List (Nat × ProductRead))
    (pre rest : List OrderItem) (h : ∀ x ∈ pre, itemOkB products x = true) :
    itemsCheck products (pre ++ rest) = itemsCheck products rest := by
  induction pre with
  | nil => rfl
  | cons a as ih =>
    have ha := h a (List.mem_cons_self a as)
    cases hg : dictGet products a.product_id with
    | none => simp [itemOkB, hg] at ha
    | some product =>
      simp only [itemOkB, hg, Bool.not_eq_true', decide_eq_false_iff_not] at ha
      simp only [List.cons_append, itemsCheck, hg, if_neg ha]
      exact ih fun x hx => h x (List.mem_cons_of_mem _ hx)

/-! ### Branch lemmas for `create_order` -/

theorem create_order_of_dup (s : AppState) (order : OrderCreate) (newId now : Nat)
    (h : hasOrderNumber s order.order_number = true) :
    create_order s order newId now = (.err orderNumberDuplicateError, s) := by
  simp [create_order, h]

theorem create_order_of_no_customer (s : AppState) (order : OrderCreate)
    (newId now : Nat) (h1 : hasOrderNumber s order.order_number = false)
    (h2 : dictGet s.persons order.customer_id = none) :
    create_order s order newId now = (.err customerNotFoundError, s) := by
  simp [create_order, h1, h2]

theorem create_order_of_item_err (s : AppState) (order : OrderCreate)
    (newId now : Nat) (e : ApiError)
    (h1 : hasOrderNumber s order.order_number = false)
    (h2 : (dictGet s.persons order.customer_id).isNone = false)
    (h3 : itemsCheck s.products order.items = some e) :
    create_order s order newId now = (.err e, s) := by
  simp [create_order, h1, h2, h3]

theorem create_order_of_all_ok (s : AppState) (order : OrderCreate)
    (newId now : Nat) (h1 : hasOrderNumber s order.order_number = false)
    (h2 : (dictGet s.persons order.customer_id).isNone = false)
    (h3 : ∀ x ∈ order.items, itemOkB s.products x = true) :
    create_order s order newId now =
      (.ok 201 (orderReadOfCreate order newId now),
       { s with orders := dictSet s.orders newId (orderReadOfCreate order newId now) }) := by
  have hic := (itemsCheck_eq_none_iff s.products order.items).mpr h3
  simp [create_order, h1, h2, hic, orderReadOfCreate]

/-! ### Lemmas about the filter engine -/

theorem mem_optFilter {α β : Type} (o : Option β) (p : β → α → Bool)
    (xs : List α) (x : α) :
    x ∈ optFilter o p xs ↔ x ∈ xs ∧ ∀ b, o = some b → p b x = true := by
  cases o with
  | none => simp [optFilter]
  | some b => simp [optFilter, List.mem_filter]

theorem optFilter_sublist {α β : Type} (o : Option β) (p : β → α → Bool)
    (xs : List α) : List.Sublist (optFilter o p xs) xs := by
  cases o with
  | none => exact List.Sublist.refl _
  | some b => exact List.filter_sublist _

/-! ### Lemmas for the is_active flag and the state shape of `create_order` -/

theorem dictGet_map_setActive (b : Bool) (tbl : List (Nat × ProductRead)) (k : Nat) :
    dictGet (tbl.map fun kv => (kv.1, setActive b kv.2)) k =
      (dictGet tbl k).map (setActive b) := by
  induction tbl with
  | nil => rfl
  | cons kv rest ih =>
    obtain ⟨k2, v2⟩ := kv
    by_cases h : k2 = k
    · simp [dictGet, h]
    · simp [dictGet, h, ih]

theorem itemsCheck_setAllActive (b : Bool) (products : List (Nat × ProductRead))
    (items : List OrderItem) :
    itemsCheck (products.map fun kv => (kv.1, setActive b kv.2)) items =
      itemsCheck products items := by
  induction items with
  | nil => rfl
  | cons item rest ih =>
    simp only [itemsCheck, dictGet_map_setActive]
    cases dictGet products item.product_id with
    | none => rfl
    | some p =>
      by_cases hlt : p.stock_quantity < item.quantity
      · simp [setActive, hlt]
      · simpa [setActive, hlt] using ih

theorem create_order_state_cases (s : AppState) (order : OrderCreate)
    (newId now : Nat) :
    (create_order s order newId now).2 = s ∨
    (create_order s order newId now).2 =
      { s with orders := dictSet s.orders newId (orderReadOfCreate order newId now) } := by
  cases h1 : hasOrderNumber s order.order_number with
  | true => exact Or.inl (by simp [create_order, h1])
  | false =>
    cases h2 : (dictGet s.persons order.customer_id).isNone with
    | true => exact Or.inl (by simp [create_order, h1, h2])
    | false =>
      cases hic : itemsCheck s.products order.items with
      | some e => exact Or.inl (by simp [create_order, h1, h2, hic])
      | none => exact Or.inr (by simp [create_order, h1, h2, hic, orderReadOfCreate])

/-! ### Claim theorems -/

/-- C1: order-admission gating of `create_order`.  In the fixed check
order of the source (order-number uniqueness, then customer existence,
then per-item product existence and stock sufficiency, short-circuiting on
the first failing item), the request fails with the DuplicateConstraint
error when the order number repeats a stored order, with the
InvalidReference errors when the customer or an item's product is unknown,
with the InsufficientResource error when an item's quantity exceeds that
product's stock, and when none of these conditions hold the order is
persisted under its generated id and returned with status 201. -/
theorem create_order_admission_gating (s : AppState) (order : OrderCreate)
    (newId now : Nat) :
    (hasOrderNumber s order.order_number = true →
      create_order s order newId now = (.err orderNumberDuplicateError, s)) ∧
    (hasOrderNumber s order.order_number = false →
      dictGet s.persons order.customer_id = none →
      create_order s order newId now = (.err customerNotFoundError, s)) ∧
    (∀ pre item post,
      hasOrderNumber s order.order_number = false →
      (dictGet s.persons order.customer_id).isNone = false →
      order.items = pre ++ item :: post →
      (∀ x ∈ pre, itemOkB s.products x = true) →
      dictGet s.products item.product_id = none →
      create_order s order newId now =
        (.err (productMissingError item.product_id), s)) ∧
    (∀ pre item post p,
      hasOrderNumber s order.order_number = false →
      (dictGet s.persons order.customer_id).isNone = false →
      order.items = pre ++ item :: post →
      (∀ x ∈ pre, itemOkB s.products x = true) →
      dictGet s.products item.product_id = some p →
      p.stock_quantity < item.quantity →
      create_order s order newId now =
        (.err (insufficientStockError p.name), s)) ∧
    (hasOrderNumber s order.order_number = false →
      (dictGet s.persons order.customer_id).isNone = false →
      (∀ x ∈ order.items, itemOkB s.products x = true) →
      create_order s order newId now =
        (.ok 201 (orderReadOfCreate order newId now),
         { s with orders :=
             dictSet s.orders newId (orderReadOfCreate order newId now) })) := by
  refine ⟨create_order_of_dup s order newId now,
    create_order_of_no_customer s order newId now, ?_, ?_,
    create_order_of_all_ok s order newId now⟩
  · intro pre item post h1 h2 heq hpre hg
    have hic : itemsCheck s.products order.items =
        some (productMissingError item.product_id) := by
      rw [heq, itemsCheck_append_of_ok s.products pre _ hpre]
      simp [itemsCheck, hg]
    exact create_order_of_item_err s order newId now _ h1 h2 hic
  · intro pre item post p h1 h2 heq hpre hg hlt
    have hic : itemsCheck s.products order.items =
        some (insufficientStockError p.name) := by
      rw [heq, itemsCheck_append_of_ok s.products pre _ hpre]
      simp [itemsCheck, hg, hlt]
    exact create_order_of_item_err s order newId now _ h1 h2 hic

/-- Witness for C1: in `baseState` the fully valid `order0` is admitted
with 201, while from the empty state (no persons) the same request is
rejected with the customer InvalidReference error. -/
theorem create_order_admission_gating_witness :
    create_order baseState order0 7 3 =
      (.ok 201 (orderReadOfCreate order0 7 3),
       { baseState with
         orders := dictSet baseState.orders 7 (orderReadOfCreate order0 7 3) }) ∧
    create_order emptyState order0 7 3 = (.err customerNotFoundError, emptyState) := by
  constructor
  · exact (create_order_admission_gating baseState order0 7 3).2.2.2.2
      rfl rfl (by decide)
  · exact (create_order_admission_gating emptyState order0 7 3).2.1 rfl rfl

/-- Counterexample to C2: `baseState` already stores `personA` whose UNI is
"ab1234", yet a second Person-creation request carrying the same UNI is
accepted with 201 and stored — `create_person` performs no uniqueness scan,
so the second create is not rejected with DuplicateConstraint. -/
theorem create_person_duplicate_uni_cex :
    personA.uni = some "ab1234" ∧
    personACreate.uni = some "ab1234" ∧
    (create_person baseState personACreate 6 9).1 =
      .ok 201 (personReadOfCreate personACreate 6 9) ∧
    dictGet (create_person baseState personACreate 6 9).2.persons 6 =
      some (personReadOfCreate personACreate 6 9) ∧
    dictGet (create_person baseState personACreate 6 9).2.persons 5 = some personA := by
  refine ⟨rfl, rfl, rfl, ?_, rfl⟩
  simp [create_person, baseState, dictSet, dictGet, personReadOfCreate]

/-- C2 amended: `create_person` enforces no uniqueness on UNI.  Even when
some stored Person carries the same non-null UNI as the payload, the
create is accepted with status 201 and the new Person is stored under its
generated id. -/
theorem create_person_no_uni_check (s : AppState) (person : PersonCreate)
    (newId now : Nat) (k : Nat) (q : PersonRead) (hk : (k, q) ∈ s.persons)
    (hdup : q.uni = person.uni) (hn : person.uni ≠ none) :
    create_person s person newId now =
      (.ok 201 (personReadOfCreate person newId now),
       { s with
         persons := dictSet s.persons newId (personReadOfCreate person newId now) }) := rfl

/-- Witness for C2 amended: the concrete duplicate-UNI create against
`baseState` succeeds. -/
theorem create_person_no_uni_check_witness :
    create_person baseState personACreate 6 9 =
      (.ok 201 (personReadOfCreate personACreate 6 9),
       { baseState with
         persons := dictSet baseState.persons 6 (personReadOfCreate personACreate 6 9) }) :=
  create_person_no_uni_check baseState personACreate 6 9 5 personA
    (by decide) rfl (by decide)

/-- Counterexample to C3: PATCHing stored Person 5 in `baseState` at
operation time 9 is accepted (200), but the persisted entity's
`updated_at` is still 0, its pre-patch value, not the time of the
operation — `update_person` never refreshes the timestamp. -/
theorem update_person_stale_timestamp_cex :
    (update_person baseState 5 personPatch0 9).1 =
      .ok 200 (applyPersonUpdate personA personPatch0) ∧
    (applyPersonUpdate personA personPatch0).updated_at = 0 ∧
    ¬(applyPersonUpdate personA personPatch0).updated_at = 9 := by
  refine ⟨?_, rfl, by decide⟩
  simp [update_person, baseState, dictGet]

/-- C3 amended: the update timestamp is refreshed to the operation time on
every accepted PATCH of a Product or an Order, but an accepted PATCH of a
Person or an Address leaves the stored `updated_at` exactly as it was
(those handlers never touch it). -/
theorem updated_at_refresh_by_collection (s : AppState) (now : Nat) :
    (∀ product_id u p s',
      update_product s product_id u now = (.ok 200 p, s') →
      p.updated_at = now ∧ dictGet s'.products product_id = some p) ∧
    (∀ order_id u o s',
      update_order s order_id u now = (.ok 200 o, s') →
      o.updated_at = now ∧ dictGet s'.orders order_id = some o) ∧
    (∀ person_id u p s' st,
      dictGet s.persons person_id = some st →
      update_person s person_id u now = (.ok 200 p, s') →
      p.updated_at = st.updated_at) ∧
    (∀ address_id u a s' st,
      dictGet s.addresses address_id = some st →
      update_address s address_id u now = (.ok 200 a, s') →
      a.updated_at = st.updated_at) := by
  refine ⟨?_, ?_, ?_, ?_⟩
  · intro product_id u p s' h
    cases hg : dictGet s.products product_id with
    | none => simp [update_product, hg] at h
    | some stored =>
      by_cases hc : skuConflictExists s.products product_id u.sku = true
      · simp [update_product, hg, hc] at h
      · rw [Bool.not_eq_true] at hc
        simp [update_product, hg, hc] at h
        obtain ⟨hp, hs⟩ := h
        subst hs
        refine ⟨?_, ?_⟩
        · rw [← hp]; rfl
        · rw [← hp]; exact dictGet_dictSet_self ..
  · intro order_id u o s' h
    cases hg : dictGet s.orders order_id with
    | none => simp [update_order, hg] at h
    | some stored =>
      simp [update_order, hg] at h
      obtain ⟨ho, hs⟩ := h
      subst hs
      refine ⟨?_, ?_⟩
      · rw [← ho]; rfl
      · rw [← ho]; exact dictGet_dictSet_self ..
  · intro person_id u p s' st hst h
    simp [update_person, hst] at h
    rw [← h.1]
    rfl
  · intro address_id u a s' st hst h
    simp [update_address, hst] at h
    rw [← h.1]
    rfl

/-- Witness for C3 amended: a concrete accepted Product PATCH lands with
`updated_at = 9`, and the concrete accepted Person PATCH keeps
`personA.updated_at`. -/
theorem updated_at_refresh_by_collection_witness :
    (applyProductUpdate productA (skuPatch productA.sku) 9).updated_at = 9 ∧
    (applyPersonUpdate personA personPatch0).updated_at = personA.updated_at := by
  constructor
  · exact ((updated_at_refresh_by_collection twoProductState 9).1 10
      (skuPatch productA.sku) (applyProductUpdate productA (skuPatch productA.sku) 9)
      { twoProductState with
        products := dictSet twoProductState.products 10
          (applyProductUpdate productA (skuPatch productA.sku) 9) }
      (by decide)).1
  · exact (updated_at_refresh_by_collection baseState 9).2.2.1 5 personPatch0
      (applyPersonUpdate personA personPatch0)
      { baseState with
        persons := dictSet baseState.persons 5 (applyPersonUpdate personA personPatch0) }
      personA (by decide) (by decide)

/-- C4: PATCHing a stored Product's SKU to the SKU of some other stored
Product is rejected with the DuplicateConstraint error and leaves the
whole state (in particular that Product) unchanged, while PATCHing its SKU
to its own current value succeeds — the scan excludes the entity being
updated, so there is no self-collision.  The success half assumes no other
stored product shares the SKU, which is exactly the collection-level
uniqueness invariant. -/
theorem update_product_sku_uniqueness (s : AppState) (product_id : Nat)
    (P : ProductRead) (now : Nat) (hP : dictGet s.products product_id = some P) :
    (∀ (k : Nat) (Q : ProductRead) (u : ProductUpdate),
      (k, Q) ∈ s.products → k ≠ product_id → u.sku = some Q.sku →
      update_product s product_id u now = (.err skuDuplicateError, s)) ∧
    ((∀ kv ∈ s.products, kv.1 ≠ product_id → kv.2.sku ≠ P.sku) →
      update_product s product_id (skuPatch P.sku) now =
        (.ok 200 (applyProductUpdate P (skuPatch P.sku) now),
         { s with
           products := dictSet s.products product_id
             (applyProductUpdate P (skuPatch P.sku) now) }) ∧
      (applyProductUpdate P (skuPatch P.sku) now).sku = P.sku) := by
  constructor
  · intro k Q u hmem hne hsku
    have hconf : skuConflictExists s.products product_id u.sku = true := by
      rw [hsku, skuConflictExists]
      exact List.any_eq_true.mpr ⟨(k, Q), hmem, by simp [hne]⟩
    simp [update_product, hP, hconf]
  · intro hno
    have hconf : skuConflictExists s.products product_id (some P.sku) = false := by
      rw [skuConflictExists]
      rw [List.any_eq_false]
      intro kv hkv
      by_cases hk : kv.1 = product_id
      · simp [hk]
      · simp [hk, hno kv hkv hk]
    refine ⟨?_, rfl⟩
    simp [update_product, hP, skuPatch, hconf]

/-- Witness for C4: in `twoProductState`, patching product 10's SKU to
product 11's SKU is rejected with the state unchanged, while patching it
to its own SKU succeeds. -/
theorem update_product_sku_uniqueness_witness :
    update_product twoProductState 10 (skuPatch productB.sku) 9 =
      (.err skuDuplicateError, twoProductState) ∧
    update_product twoProductState 10 (skuPatch productA.sku) 9 =
      (.ok 200 (applyProductUpdate productA (skuPatch productA.sku) 9),
       { twoProductState with
         products := dictSet twoProductState.products 10
           (applyProductUpdate productA (skuPatch productA.sku) 9) }) := by
  have h := update_product_sku_uniqueness twoProductState 10 productA 9 (by decide)
  exact ⟨h.1 11 productB (skuPatch productB.sku) (by decide) (by decide) rfl,
    (h.2 (by decide)).1⟩

/-- C5: the product list endpoint applies its active filters as a pure
conjunction — an element survives the combined query exactly when it
survives each filter taken alone (absent filters are no-ops, so their
solo result is the full snapshot) — and the surviving elements keep the
relative order of the input snapshot (the result is a sublist of it). -/
theorem list_products_filter_conjunction (s : AppState) (f : ProductFilters) :
    (∀ x, x ∈ list_products s f ↔
      (x ∈ list_products s (onlyNameFilter f) ∧
       x ∈ list_products s (onlySkuFilter f) ∧
       x ∈ list_products s (onlyCategoryFilter f) ∧
       x ∈ list_products s (onlyActiveFilter f) ∧
       x ∈ list_products s (onlyMinPriceFilter f) ∧
       x ∈ list_products s (onlyMaxPriceFilter f))) ∧
    List.Sublist (list_products s f) (dictValues s.products) := by
  constructor
  · intro x
    simp only [list_products, onlyNameFilter, onlySkuFilter, onlyCategoryFilter,
      onlyActiveFilter, onlyMinPriceFilter, onlyMaxPriceFilter, mem_optFilter]
    simp only [Option.some.injEq, reduceCtorEq, false_implies, implies_true, and_true,
      forall_eq']
    tauto
  · exact ((((((optFilter_sublist _ _ _).trans (optFilter_sublist _ _ _)).trans
      (optFilter_sublist _ _ _)).trans (optFilter_sublist _ _ _)).trans
      (optFilter_sublist _ _ _)).trans (optFilter_sublist _ _ _))

/-- C6: a failed order creation has no effect at all — whenever
`create_order` raises, the successor state equals the input state in every
table, so no entity is partially written. -/
theorem create_order_failure_no_partial_write (s : AppState) (order : OrderCreate)
    (newId now : Nat) (e : ApiError)
    (h : (create_order s order newId now).1 = .err e) :
    (create_order s order newId now).2 = s := by
  cases h1 : hasOrderNumber s order.order_number with
  | true => simp [create_order, h1]
  | false =>
    cases h2 : (dictGet s.persons order.customer_id).isNone with
    | true => simp [create_order, h1, h2]
    | false =>
      cases hic : itemsCheck s.products order.items with
      | some e2 => simp [create_order, h1, h2, hic]
      | none => simp [create_order, h1, h2, hic] at h

/-- Witness for C6: the rejected duplicate-number order against
`stateWithOrder` leaves the state untouched. -/
theorem create_order_failure_no_partial_write_witness :
    (create_order stateWithOrder order0 7 3).2 = stateWithOrder :=
  create_order_failure_no_partial_write stateWithOrder order0 7 3
    orderNumberDuplicateError (by decide)

/-- C7: a successful order creation writes only the Order table — the
Product table (and the Person table) of the successor state is exactly the
input one, so in particular every referenced product's `stock_quantity` is
unchanged: stock is checked but never decremented. -/
theorem create_order_never_touches_products (s : AppState) (order : OrderCreate)
    (newId now : Nat) (o : OrderRead) (s' : AppState)
    (h : create_order s order newId now = (.ok 201 o, s')) :
    s'.products = s.products ∧ s'.persons = s.persons ∧
    ∀ item ∈ order.items,
      dictGet s'.products item.product_id = dictGet s.products item.product_id := by
  cases h1 : hasOrderNumber s order.order_number with
  | true => simp [create_order, h1] at h
  | false =>
    cases h2 : (dictGet s.persons order.customer_id).isNone with
    | true => simp [create_order, h1, h2] at h
    | false =>
      cases hic : itemsCheck s.products order.items with
      | some e2 => simp [create_order, h1, h2, hic] at h
      | none =>
        simp [create_order, h1, h2, hic] at h
        obtain ⟨-, hs⟩ := h
        subst hs
        exact ⟨rfl, rfl, fun item _ => rfl⟩

/-- Witness for C7: the admitted `order0` against `baseState` leaves the
product table, and product 10's stock of 50, exactly as before. -/
theorem create_order_never_touches_products_witness :
    (create_order baseState order0 7 3).2.products = baseState.products := by
  have h := create_order_never_touches_products baseState order0 7 3
    (orderReadOfCreate order0 7 3)
    { baseState with
      orders := dictSet baseState.orders 7 (orderReadOfCreate order0 7 3) }
    (by decide)
  exact h.1

/-- C8: for every stored Order, whatever its current status, a PATCH
setting the status to any value of the enumeration is accepted with 200
and persisted — no transition table gates the update, including
transitions out of DELIVERED or CANCELLED. -/
theorem update_order_accepts_any_status (s : AppState) (order_id : Nat)
    (stored : OrderRead) (v : OrderStatus) (now : Nat)
    (h : dictGet s.orders order_id = some stored) :
    update_order s order_id ⟨some v, none, none⟩ now =
      (.ok 200 { stored with status := v, updated_at := now },
       { s with
         orders := dictSet s.orders order_id
           { stored with status := v, updated_at := now } }) ∧
    dictGet
      (dictSet s.orders order_id { stored with status := v, updated_at := now })
      order_id = some { stored with status := v, updated_at := now } := by
  constructor
  · simp [update_order, h, applyOrderUpdate]
  · exact dictGet_dictSet_self ..

/-- Witness for C8: the stored order 20 is in the DELIVERED state, and a
PATCH back to PENDING is accepted and persisted. -/
theorem update_order_accepts_any_status_witness :
    orderA.status = OrderStatus.delivered ∧
    update_order stateWithOrder 20 ⟨some OrderStatus.pending, none, none⟩ 9 =
      (.ok 200 { orderA with status := OrderStatus.pending, updated_at := 9 },
       { stateWithOrder with
         orders := dictSet stateWithOrder.orders 20
           { orderA with status := OrderStatus.pending, updated_at := 9 } }) :=
  ⟨rfl, (update_order_accepts_any_status stateWithOrder 20 orderA
    OrderStatus.pending 9 (by decide)).1⟩

/-- C9: order creation never consults the products' `is_active` flags:
overwriting every stored product's flag (in particular deactivating all of
them) leaves the response of `create_order` literally unchanged, and a
request passing the duplicate, customer and per-item checks is admitted
with 201 even when every referenced product has `is_active = false`. -/
theorem create_order_ignores_is_active (s : AppState) (order : OrderCreate)
    (newId now : Nat) :
    (∀ b, (create_order (setAllActive b s) order newId now).1 =
      (create_order s order newId now).1) ∧
    (hasOrderNumber s order.order_number = false →
     (dictGet s.persons order.customer_id).isNone = false →
     (∀ x ∈ order.items, itemOkB s.products x = true) →
     (∀ x ∈ order.items, ∀ p, dictGet s.products x.product_id = some p →
        p.is_active = false) →
     (create_order s order newId now).1 =
       .ok 201 (orderReadOfCreate order newId now)) := by
  constructor
  · intro b
    have hnum : hasOrderNumber (setAllActive b s) order.order_number =
        hasOrderNumber s order.order_number := rfl
    have hcust : dictGet (setAllActive b s).persons order.customer_id =
        dictGet s.persons order.customer_id := rfl
    have hit : itemsCheck (setAllActive b s).products order.items =
        itemsCheck s.products order.items :=
      itemsCheck_setAllActive b s.products order.items
    cases h1 : hasOrderNumber s order.order_number with
    | true =>
      rw [create_order_of_dup s order newId now h1,
        create_order_of_dup (setAllActive b s) order newId now (hnum.trans h1)]
    | false =>
      cases h2 : (dictGet s.persons order.customer_id).isNone with
      | true =>
        have h2' := Option.isNone_iff_eq_none.mp h2
        rw [create_order_of_no_customer s order newId now h1 h2',
          create_order_of_no_customer (setAllActive b s) order newId now
            (hnum.trans h1) (hcust.trans h2')]
      | false =>
        cases hic : itemsCheck s.products order.items with
        | some e =>
          rw [create_order_of_item_err s order newId now e h1 h2 hic,
            create_order_of_item_err (setAllActive b s) order newId now e
              (hnum.trans h1) (by rw [hcust]; exact h2) (hit.trans hic)]
        | none =>
          have h3 := (itemsCheck_eq_none_iff s.products order.items).mp hic
          rw [create_order_of_all_ok s order newId now h1 h2 h3,
            create_order_of_all_ok (setAllActive b s) order newId now
              (hnum.trans h1) (by rw [hcust]; exact h2)
              ((itemsCheck_eq_none_iff _ order.items).mp (hit.trans hic))]
  · intro h1 h2 h3 _
    rw [create_order_of_all_ok s order newId now h1 h2 h3]

/-- Witness for C9: against `inactiveState`, where the single referenced
product has `is_active = false`, the valid `order0` is still admitted. -/
theorem create_order_ignores_is_active_witness :
    productInactive.is_active = false ∧
    (create_order inactiveState order0 7 3).1 =
      .ok 201 (orderReadOfCreate order0 7 3) :=
  ⟨rfl, (create_order_ignores_is_active inactiveState order0 7 3).2
    rfl rfl (by decide) (by decide)⟩

/-- C10: the Product and Order tables keep every stored entity under its
own `id` field as key (the update payload models carry no `id` field), and
this invariant is preserved by the create, partial-update and delete
handlers of both collections. -/
theorem stores_keyed_by_own_id (s : AppState)
    (hp : productsKeyed s.products = true) (ho : ordersKeyed s.orders = true) :
    (∀ pc newId now,
      productsKeyed (create_product s pc newId now).2.products = true ∧
      ordersKeyed (create_product s pc newId now).2.orders = true) ∧
    (∀ product_id u now,
      productsKeyed (update_product s product_id u now).2.products = true ∧
      ordersKeyed (update_product s product_id u now).2.orders = true) ∧
    (∀ product_id,
      productsKeyed (delete_product s product_id).2.products = true ∧
      ordersKeyed (delete_product s product_id).2.orders = true) ∧
    (∀ oc newId now,
      productsKeyed (create_order s oc newId now).2.products = true ∧
      ordersKeyed (create_order s oc newId now).2.orders = true) ∧
    (∀ order_id u now,
      productsKeyed (update_order s order_id u now).2.products = true ∧
      ordersKeyed (update_order s order_id u now).2.orders = true) ∧
    (∀ order_id,
      productsKeyed (delete_order s order_id).2.products = true ∧
      ordersKeyed (delete_order s order_id).2.orders = true) := by
  refine ⟨?_, ?_, ?_, ?_, ?_, ?_⟩
  · intro pc newId now
    by_cases hdup : (dictValues s.products).any
        (fun existing_product => existing_product.sku == pc.sku) = true
    · simp [create_product, hdup, hp, ho]
    · rw [Bool.not_eq_true] at hdup
      refine ⟨?_, by simp [create_product, hdup, ho]⟩
      simp only [create_product, hdup, Bool.false_eq_true, if_false]
      exact all_dictSet hp (by simp)
  · intro product_id u now
    cases hg : dictGet s.products product_id with
    | none => simp [update_product, hg, hp, ho]
    | some stored =>
      by_cases hc : skuConflictExists s.products product_id u.sku = true
      · simp [update_product, hg, hc, hp, ho]
      · rw [Bool.not_eq_true] at hc
        refine ⟨?_, by simp [update_product, hg, hc, ho]⟩
        simp only [update_product, hg, hc, Bool.false_eq_true, if_false]
        have hid : stored.id = product_id := by
          have h4 := List.all_eq_true.mp hp (product_id, stored) (dictGet_mem hg)
          simpa using h4
        exact all_dictSet hp (by simp [applyProductUpdate, hid])
  · intro product_id
    by_cases habs : (dictGet s.products product_id).isNone = true
    · simp [delete_product, habs, hp, ho]
    · rw [Bool.not_eq_true] at habs
      refine ⟨?_, by simp [delete_product, habs, ho]⟩
      simp only [delete_product, habs, Bool.false_eq_true, if_false]
      exact all_dictDel hp
  · intro oc newId now
    rcases create_order_state_cases s oc newId now with hcase | hcase
    · rw [hcase]; exact ⟨hp, ho⟩
    · rw [hcase]
      exact ⟨hp, all_dictSet ho (by simp [orderReadOfCreate])⟩
  · intro order_id u now
    cases hg : dictGet s.orders order_id with
    | none => simp [update_order, hg, hp, ho]
    | some stored =>
      refine ⟨by simp [update_order, hg, hp], ?_⟩
      simp only [update_order, hg]
      have hid : stored.id = order_id := by
        have h4 := List.all_eq_true.mp ho (order_id, stored) (dictGet_mem hg)
        simpa using h4
      exact all_dictSet ho (by simp [applyOrderUpdate, hid])
  · intro order_id
    by_cases habs : (dictGet s.orders order_id).isNone = true
    · simp [delete_order, habs, hp, ho]
    · rw [Bool.not_eq_true] at habs
      refine ⟨by simp [delete_order, habs, hp], ?_⟩
      simp only [delete_order, habs, Bool.false_eq_true, if_false]
      exact all_dictDel ho

/-- Witness for C10: creating `order0` and patching product 10 from the
concrete `stateWithOrder` (whose tables are keyed by id) preserve the
keying invariant. -/
theorem stores_keyed_by_own_id_witness :
    ordersKeyed (create_order stateWithOrder order0 7 3).2.orders = true ∧
    productsKeyed
      (update_product stateWithOrder 10 (skuPatch productA.sku) 9).2.products = true := by
  have h := stores_keyed_by_own_id stateWithOrder (by decide) (by decide)
  exact ⟨(h.2.2.2.1 order0 7 3).2, (h.2.1 10 (skuPatch productA.sku) 9).1⟩

end CloudHw1
